import Mathlib

set_option maxRecDepth 16384

/-!
Verification development for the aidsorb point-cloud data pipeline.

The repository provides two source files:

* `src/aidsorb/datamodules.py` — the `PCDDataModule` split coordinator,
  embedded below faithfully (configuration record, mutable per-split
  state, `setup`, the three `*_dataloader` methods).
* `tests/test_utils.py` — tests of the archive builder
  (`pcd_from_file`, `pcd_from_files`, `pcd_from_dir` of
  `aidsorb/utils.py`, a file that is not part of the sources here).
  The builder itself is therefore modelled from the spec where needed.

Strings are manipulated through their underlying character lists so that
every definition reduces inside the kernel.
-/

namespace Aidsorb

/-- Split a character list at every occurrence of the separator `c`,
mirroring Python `str.split(c)` for a one-character separator:
the empty list yields one empty field. -/
def splitChar (c : Char) : List Char → List (List Char)
  | [] => [[]]
  | x :: xs =>
    let r := splitChar c xs
    if x = c then [] :: r
    else
      match r with
      | [] => [[x]]
      | y :: ys => (x :: y) :: ys

/-- Last path component of a path string (the part after the final slash). -/
def baseName (p : String) : List Char :=
  (splitChar '/' p.toList).getLastD []

/-- Drop the final dot-extension of a file base name, keeping everything
before the last dot (names without a dot are kept whole). -/
def dropExt (base : List Char) : List Char :=
  let parts := splitChar '.' base
  if parts.length ≤ 1 then base else List.intercalate ['.'] parts.dropLast

/-- File stem of a path: base name without directory and extension,
as in Python `pathlib.Path(p).stem`. -/
def stem (p : String) : String :=
  ⟨dropExt (baseName p)⟩

/-- Parent directory of a path, as in `pathlib.Path(p).parent`:
everything before the final slash, or `"."` when there is no slash. -/
def pathParent (p : String) : String :=
  let parts := splitChar '/' p.toList
  if parts.length ≤ 1 then "." else ⟨List.intercalate ['/'] parts.dropLast⟩

/-- Join a directory and a relative file name, as `os.path.join` does for a
directory without a trailing slash. -/
def pathJoin (dir file : String) : String :=
  dir ++ "/" ++ file

/-- One point of a point cloud: three spatial coordinates and the atomic
number of the atom, the four columns of a stored row. Coordinates are
modelled as integers (the source stores them as floats; the claims under
consideration only concern shapes and the atomic-number column). -/
structure Point where
  x : Int
  y : Int
  z : Int
  atomicNumber : Nat
deriving DecidableEq, Repr

/-- A point cloud: one `Point` per atom, in file order. -/
abbrev PCD := List Point

/-- Modelled from the spec: a structure file as the builder sees it, its
path and the point cloud its contents parse to. The structure-file
parser (the reading step of `aidsorb.utils.pcd_from_file`) is not among
the sources; per the spec a file parses to one point per atom with
columns `(x, y, z, atomic_number)`. -/
structure StructureFile where
  path : String
  pcd : PCD
deriving DecidableEq, Repr

/-- Modelled from the spec: `pcd_from_file` returns the pair
`(name, point_cloud)` where `name` is the file stem. The file's parsed
contents are carried by the `StructureFile` record. -/
def pcd_from_file (f : StructureFile) : String × PCD :=
  (stem f.path, f.pcd)

/-- An archive is the ordered association of structure names to stored
point clouds; `npz` insertion order is the stored key order. -/
abbrev Archive := List (String × PCD)

/-- Modelled from the spec: `pcd_from_files` reads each file in input
order, optionally applies one random permutation to the collected pairs
(shuffle), and stores all pairs. The randomness source is external;
`shuffleFn` stands for the permutation `random.shuffle` applies, and the
theorems about shuffling assume only that it permutes its input. -/
def pcd_from_files (shuffleFn : Archive → Archive)
    (files : List StructureFile) (shuffle : Bool) : Archive :=
  let pairs := files.map pcd_from_file
  if shuffle then shuffleFn pairs else pairs

/-- Modelled from the spec: `pcd_from_dir` behaves as `pcd_from_files`
applied to the directory's natural listing order, here the order of the
`listing` argument. -/
def pcd_from_dir (shuffleFn : Archive → Archive)
    (listing : List StructureFile) (shuffle : Bool) : Archive :=
  pcd_from_files shuffleFn listing shuffle

/-- Stored key order of an archive. -/
def archiveNames (a : Archive) : List String :=
  a.map Prod.fst

/-- Lookup of a stored point cloud by structure name. -/
def archiveGet (a : Archive) (name : String) : Option PCD :=
  (a.find? (fun kv => kv.1 = name)).map Prod.snd

/-- Shape of a stored array: number of atoms by the four columns
`(x, y, z, atomic_number)` every `Point` carries. -/
def shape (p : PCD) : Nat × Nat :=
  (p.length, 4)

/-- Last column of a stored array: the atomic numbers. -/
def lastColumn (p : PCD) : List Nat :=
  p.map Point.atomicNumber

/-!
The split coordinator, embedded from `src/aidsorb/datamodules.py`.
Transforms are opaque callables in the source, so they are carried as
values of type parameters `T` (point-cloud transforms) and `Lb` (label
transforms). The manifest files `setup` reads are modelled by a function
`fs` from a path to the name list stored there, `none` meaning the file
is absent (reading it raises).
-/

/-- A per-split dataset exactly as `aidsorb.data.PCDDataset` is
instantiated by the coordinator: the manifest slice, the two data paths,
the label bookkeeping, and the two transforms. -/
structure PCDDataset (T Lb : Type) where
  pcd_names : List String
  path_to_X : String
  path_to_Y : String
  index_col : String
  labels : List String
  transform_x : Option T
  transform_y : Option Lb
deriving DecidableEq, Repr

/-- Keyword-argument value passed to the external `DataLoader`
constructor: the source passes a dataset, numbers, booleans, and the
caller-supplied passthrough options of `config_dataloaders`. -/
inductive KwArg (T Lb : Type) where
  | nat : Nat → KwArg T Lb
  | bool : Bool → KwArg T Lb
  | dataset : PCDDataset T Lb → KwArg T Lb
deriving DecidableEq, Repr

/-- Python-level failures the embedded methods can raise. -/
inductive PyError where
  /-- Accessing a dataset attribute that `setup` has not created yet:
  `AttributeError` in the source, the spec's `NotReadyError`. -/
  | notReadyError
  /-- A keyword argument passed twice in one call: Python `TypeError`. -/
  | typeError
  /-- Invoking a loader hook the class does not define (there is no
  `predict_dataloader` method in the source class; the request falls
  through to the training-framework base class, which fails). -/
  | notImplementedError
deriving DecidableEq, Repr

/-- The configuration captured by `PCDDataModule.__init__`: every
constructor parameter stored on `self`, defaults as in the source
(`train_size=None`, `shuffle=False`, `train_batch_size` and
`eval_batch_size` both `32`, `config_dataloaders` defaulting to the
empty mapping — the `None`-to-empty normalization happens in
`__init__`, so the stored field is already a mapping). `train_size` is a
Python optional integer, so negative values are representable. -/
structure PCDDataModule (T Lb : Type) where
  path_to_X : String
  path_to_Y : String
  index_col : String
  labels : List String
  train_size : Option Int := none
  train_transform_x : Option T := none
  eval_transform_x : Option T := none
  transform_y : Option Lb := none
  shuffle : Bool := false
  train_batch_size : Nat := 32
  eval_batch_size : Nat := 32
  config_dataloaders : List (String × KwArg T Lb) := []

/-- Directory holding the manifest files, computed in `__init__` as
`Path(self.path_to_X).parent`. -/
def PCDDataModule.path_to_names (m : PCDDataModule T Lb) : String :=
  pathParent m.path_to_X

/-- Path of the train manifest, `os.path.join(self._path_to_names, 'train.json')`. -/
def trainManifestPath (m : PCDDataModule T Lb) : String :=
  pathJoin m.path_to_names "train.json"

/-- Path of the validation manifest. -/
def valManifestPath (m : PCDDataModule T Lb) : String :=
  pathJoin m.path_to_names "validation.json"

/-- Path of the test manifest. -/
def testManifestPath (m : PCDDataModule T Lb) : String :=
  pathJoin m.path_to_names "test.json"

/-- A module instance at some point of its lifecycle: the immutable
configuration plus the attributes `setup` creates (`_train_names`,
`_val_names`, `_test_names` and the three datasets), `none` while the
attribute does not exist yet. -/
structure ModuleState (T Lb : Type) where
  m : PCDDataModule T Lb
  train_names : Option (List String) := none
  val_names : Option (List String) := none
  test_names : Option (List String) := none
  train_dataset : Option (PCDDataset T Lb) := none
  validation_dataset : Option (PCDDataset T Lb) := none
  test_dataset : Option (PCDDataset T Lb) := none

/-- State of a freshly constructed module: no `setup` attribute exists. -/
def PCDDataModule.initState (m : PCDDataModule T Lb) : ModuleState T Lb :=
  { m := m }

/-- Python list slicing `xs[:n]` for `n` an optional integer:
`None` keeps the whole list, a nonnegative `n` keeps the first `n`
elements (clamped at the length), and a negative `n` drops the last
`-n` elements (clamped at the empty list). -/
def pySliceTo (xs : List α) (n : Option Int) : List α :=
  match n with
  | none => xs
  | some k =>
    if 0 ≤ k then xs.take k.toNat
    else xs.take (xs.length - (-k).toNat)

/-- The dataset `set_train_dataset` builds: train manifest slice, shared
paths and label bookkeeping, the train point-cloud transform. -/
def mkTrainDataset (m : PCDDataModule T Lb) (names : List String) :
    PCDDataset T Lb :=
  { pcd_names := names
    path_to_X := m.path_to_X
    path_to_Y := m.path_to_Y
    index_col := m.index_col
    labels := m.labels
    transform_x := m.train_transform_x
    transform_y := m.transform_y }

/-- The dataset `set_validation_dataset` builds: the eval transform. -/
def mkValDataset (m : PCDDataModule T Lb) (names : List String) :
    PCDDataset T Lb :=
  { pcd_names := names
    path_to_X := m.path_to_X
    path_to_Y := m.path_to_Y
    index_col := m.index_col
    labels := m.labels
    transform_x := m.eval_transform_x
    transform_y := m.transform_y }

/-- The dataset `set_test_dataset` builds: the eval transform. -/
def mkTestDataset (m : PCDDataModule T Lb) (names : List String) :
    PCDDataset T Lb :=
  { pcd_names := names
    path_to_X := m.path_to_X
    path_to_Y := m.path_to_Y
    index_col := m.index_col
    labels := m.labels
    transform_x := m.eval_transform_x
    transform_y := m.transform_y }

/-- The fit branch of `setup`: read `train.json`, slice the name list to
`train_size`, read `validation.json`, build both datasets.
`fs` maps a manifest path to its stored name list; a missing file makes
the branch fail (`get_names` raises). -/
def runFit (fs : String → Option (List String)) (s : ModuleState T Lb) :
    Option (ModuleState T Lb) :=
  match fs (trainManifestPath s.m), fs (valManifestPath s.m) with
  | some tn, some vn =>
    let tnames := pySliceTo tn s.m.train_size
    some { s with
           train_names := some tnames
           val_names := some vn
           train_dataset := some (mkTrainDataset s.m tnames)
           validation_dataset := some (mkValDataset s.m vn) }
  | _, _ => none

/-- The test branch of `setup`: read `test.json`, build the test dataset. -/
def runTest (fs : String → Option (List String)) (s : ModuleState T Lb) :
    Option (ModuleState T Lb) :=
  match fs (testManifestPath s.m) with
  | some tn =>
    some { s with
           test_names := some tn
           test_dataset := some (mkTestDataset s.m tn) }
  | none => none

/-- The method `PCDDataModule.setup(stage)`: the fit branch runs when
`stage` is `None` or `'fit'`, then the test branch runs when `stage` is
`None` or `'test'`; any other stage value leaves the state unchanged. -/
def setup (fs : String → Option (List String)) (stage : Option String)
    (s : ModuleState T Lb) : Option (ModuleState T Lb) :=
  (if stage = none ∨ stage = some "fit" then runFit fs s else some s).bind
    (fun s1 =>
      if stage = none ∨ stage = some "test" then runTest fs s1 else some s1)

/-- The record the external `DataLoader` constructor produces: the
dataset, the effective batch size and shuffle flag, and the remaining
keyword options it consumed. -/
structure DataLoader (T Lb : Type) where
  dataset : PCDDataset T Lb
  batch_size : Nat
  shuffle : Bool
  extra : List (String × KwArg T Lb)
deriving DecidableEq, Repr

/-- First keyword of the given name in a keyword-argument list. -/
def kwLookup (kwargs : List (String × KwArg T Lb)) (k : String) :
    Option (KwArg T Lb) :=
  (kwargs.find? (fun kv => kv.1 = k)).map Prod.snd

/-- The external `DataLoader(...)` call applied to a keyword-argument
list. Python rejects a call that passes the same keyword twice with a
`TypeError` before the constructor body runs; otherwise the constructor
takes its `dataset`, `batch_size` (default `1`) and `shuffle`
(default `False`) arguments and keeps the rest as passthrough options. -/
def dataLoaderCall (kwargs : List (String × KwArg T Lb)) :
    Except PyError (DataLoader T Lb) :=
  if (kwargs.map Prod.fst).Nodup then
    match kwLookup kwargs "dataset" with
    | some (.dataset d) =>
      .ok { dataset := d
            batch_size :=
              match kwLookup kwargs "batch_size" with
              | some (.nat n) => n
              | _ => 1
            shuffle :=
              match kwLookup kwargs "shuffle" with
              | some (.bool b) => b
              | _ => false
            extra := kwargs.filter (fun kv =>
              kv.1 != "dataset" && kv.1 != "batch_size" && kv.1 != "shuffle") }
    | _ => .error .typeError
  else .error .typeError

/-- The method `train_dataloader`: the train dataset, the train batch
size, the configured shuffle flag, plus the passthrough options. Reading
`self.train_dataset` before `setup` created it raises. -/
def train_dataloader (s : ModuleState T Lb) :
    Except PyError (DataLoader T Lb) :=
  match s.train_dataset with
  | none => .error .notReadyError
  | some d =>
    dataLoaderCall
      ([("dataset", .dataset d),
        ("batch_size", .nat s.m.train_batch_size),
        ("shuffle", .bool s.m.shuffle)] ++ s.m.config_dataloaders)

/-- The method `val_dataloader`: the validation dataset, the eval batch
size, no explicit shuffle argument, plus the passthrough options. -/
def val_dataloader (s : ModuleState T Lb) :
    Except PyError (DataLoader T Lb) :=
  match s.validation_dataset with
  | none => .error .notReadyError
  | some d =>
    dataLoaderCall
      ([("dataset", .dataset d),
        ("batch_size", .nat s.m.eval_batch_size)] ++ s.m.config_dataloaders)

/-- The method `test_dataloader`: the test dataset, the eval batch size,
no explicit shuffle argument, plus the passthrough options. -/
def test_dataloader (s : ModuleState T Lb) :
    Except PyError (DataLoader T Lb) :=
  match s.test_dataset with
  | none => .error .notReadyError
  | some d =>
    dataLoaderCall
      ([("dataset", .dataset d),
        ("batch_size", .nat s.m.eval_batch_size)] ++ s.m.config_dataloaders)

/-- The four logical splits of the spec. -/
inductive Split where
  | train
  | val
  | test
  | predict
deriving DecidableEq, Repr

/-- Loader request dispatched by split name. The source class defines
`train_dataloader`, `val_dataloader` and `test_dataloader` only; a
predict request finds no such method on the class and fails in the
framework base class. -/
def dataloaderFor (s : ModuleState T Lb) : Split →
    Except PyError (DataLoader T Lb)
  | .train => train_dataloader s
  | .val => val_dataloader s
  | .test => test_dataloader s
  | .predict => .error .notImplementedError

/-!
Sample data for the concrete scenarios. `Modelled from the spec:` the
two sample structure files of `tests/samples` are not among the sources;
the spec records that `IRMOF-1.xyz` holds 424 atoms among which atomic
number 30 occurs, and `Cu-BTC.cif` holds 624 atoms none of which has
atomic number 30. The concrete point clouds below realize exactly that.
-/

/-- Modelled from the spec: the point cloud of the sample file
`IRMOF-1.xyz` — 424 atoms, the last one with atomic number 30 and the
rest carbon. -/
def IRMOF1_pcd : PCD :=
  List.replicate 423 ⟨0, 0, 0, 6⟩ ++ [⟨0, 0, 0, 30⟩]

/-- Modelled from the spec: the point cloud of the sample file
`Cu-BTC.cif` — 624 atoms, none with atomic number 30. -/
def CuBTC_pcd : PCD :=
  List.replicate 624 ⟨0, 0, 0, 29⟩

/-- Modelled from the spec: the sample file `IRMOF-1.xyz`. -/
def IRMOF1_file : StructureFile :=
  ⟨"tests/samples/IRMOF-1.xyz", IRMOF1_pcd⟩

/-- Modelled from the spec: the sample file `Cu-BTC.cif`. -/
def CuBTC_file : StructureFile :=
  ⟨"tests/samples/Cu-BTC.cif", CuBTC_pcd⟩

/-- The archive the builder produces from the two sample files without
shuffling. -/
def sampleArchive : Archive :=
  pcd_from_files id [IRMOF1_file, CuBTC_file] false

end Aidsorb

namespace Aidsorb

/-- C2: For every list of input structure files, building an archive
with `shuffle=False` — through `pcd_from_files`, and through
`pcd_from_dir` over the directory's natural listing order — stores
entries whose name order equals exactly the list of file stems in input
order. -/
theorem no_shuffle_preserves_name_order (shuffleFn : Archive → Archive)
    (files : List StructureFile) :
    archiveNames (pcd_from_files shuffleFn files false) =
      files.map (fun f => stem f.path) ∧
    archiveNames (pcd_from_dir shuffleFn files false) =
      files.map (fun f => stem f.path) := by
  constructor <;>
    simp [archiveNames, pcd_from_dir, pcd_from_files, pcd_from_file,
      List.map_map, Function.comp]

/-- C3: For every list of input structure files, building an archive
with `shuffle=True` stores a name list that is a permutation of the list
of input file stems — the same multiset, so the name set matches with no
duplicates beyond the input's and no omissions, every input name
appearing exactly as often as it does among the inputs — given only that
the shuffling step permutes the collected pairs. -/
theorem shuffle_names_perm (shuffleFn : Archive → Archive)
    (files : List StructureFile)
    (h : List.Perm (shuffleFn (files.map pcd_from_file))
        (files.map pcd_from_file)) :
    List.Perm (archiveNames (pcd_from_files shuffleFn files true))
      (files.map (fun f => stem f.path)) ∧
    (∀ nm : String,
      (archiveNames (pcd_from_files shuffleFn files true)).count nm =
        (files.map (fun f => stem f.path)).count nm) := by
  have hperm : List.Perm (archiveNames (pcd_from_files shuffleFn files true))
      (files.map (fun f => stem f.path)) := by
    have h2 := h.map Prod.fst
    simpa [archiveNames, pcd_from_files, pcd_from_file, List.map_map,
      Function.comp] using h2
  exact ⟨hperm, fun nm => hperm.count_eq nm⟩

/-- Witness for C3 at the two sample files and the identity
permutation. -/
theorem shuffle_names_perm_witness :
    List.Perm (archiveNames (pcd_from_files id [IRMOF1_file, CuBTC_file] true))
      ([IRMOF1_file, CuBTC_file].map (fun f => stem f.path)) ∧
    (∀ nm : String,
      (archiveNames (pcd_from_files id [IRMOF1_file, CuBTC_file] true)).count nm =
        ([IRMOF1_file, CuBTC_file].map (fun f => stem f.path)).count nm) :=
  shuffle_names_perm id [IRMOF1_file, CuBTC_file] (List.Perm.refl _)

/-- C6: Building from the two sample files with `shuffle=False` yields
an archive with exactly the two entries named `IRMOF-1` and `Cu-BTC`, of
shapes `(424, 4)` and `(624, 4)`, where atomic number 30 occurs in the
last column of the `IRMOF-1` array and not in the last column of the
`Cu-BTC` array. -/
theorem sample_archive_contents :
    archiveNames sampleArchive = ["IRMOF-1", "Cu-BTC"] ∧
    sampleArchive.length = 2 ∧
    archiveGet sampleArchive "IRMOF-1" = some IRMOF1_pcd ∧
    archiveGet sampleArchive "Cu-BTC" = some CuBTC_pcd ∧
    shape IRMOF1_pcd = (424, 4) ∧
    shape CuBTC_pcd = (624, 4) ∧
    30 ∈ lastColumn IRMOF1_pcd ∧
    30 ∉ lastColumn CuBTC_pcd := by
  refine ⟨?_, ?_, ?_, ?_, ?_, ?_, ?_, ?_⟩
  · decide
  · simp [sampleArchive, pcd_from_files]
  · decide
  · decide
  · simp [shape, IRMOF1_pcd]
  · simp [shape, CuBTC_pcd]
  · simp [lastColumn, IRMOF1_pcd, List.map_append, List.map_replicate]
  · simp [lastColumn, CuBTC_pcd, List.map_replicate, List.mem_replicate]

/-- A concrete module configuration used by the witnesses: archive at
`data/pcds.npz`, so manifests are read from `data/`. Transforms are
trivial (`Unit`). -/
def m0 : PCDDataModule Unit Unit :=
  { path_to_X := "data/pcds.npz"
    path_to_Y := "data/labels.csv"
    index_col := "name"
    labels := ["y"] }

/-- A concrete manifest environment for the witnesses: the three
manifest files exist next to the archive. -/
def fs0 : String → Option (List String) := fun p =>
  if p = "data/train.json" then some ["a", "b", "c"]
  else if p = "data/validation.json" then some ["d"]
  else if p = "data/test.json" then some ["e"] else none

/-- The state of `m0` after a full `setup(None)` over `fs0`. -/
def st0 : ModuleState Unit Unit :=
  { m := m0
    train_names := some ["a", "b", "c"]
    val_names := some ["d"]
    test_names := some ["e"]
    train_dataset := some (mkTrainDataset m0 ["a", "b", "c"])
    validation_dataset := some (mkValDataset m0 ["d"])
    test_dataset := some (mkTestDataset m0 ["e"]) }

/-- C1: For every coordinator, `setup` with stage `None` or `'fit'`
loads the train manifest from `train.json` and the validation manifest
from `validation.json` in the parent directory of `path_to_X`, truncates
the train name list to its first `train_size` entries (`pySliceTo`,
which keeps everything when `train_size` is `None`) while storing the
validation list untruncated, and constructs the train and validation
datasets; with stage `None` or `'test'` it loads `test.json` from the
same directory and constructs the test dataset. -/
theorem setup_loads_manifests (s : ModuleState T Lb)
    (fs : String → Option (List String)) (tn vn ts : List String)
    (htn : fs (pathJoin (pathParent s.m.path_to_X) "train.json") = some tn)
    (hvn : fs (pathJoin (pathParent s.m.path_to_X) "validation.json") = some vn)
    (hts : fs (pathJoin (pathParent s.m.path_to_X) "test.json") = some ts) :
    setup fs (some "fit") s = some { s with
        train_names := some (pySliceTo tn s.m.train_size)
        val_names := some vn
        train_dataset := some (mkTrainDataset s.m (pySliceTo tn s.m.train_size))
        validation_dataset := some (mkValDataset s.m vn) } ∧
    setup fs (some "test") s = some { s with
        test_names := some ts
        test_dataset := some (mkTestDataset s.m ts) } ∧
    setup fs none s = some { s with
        train_names := some (pySliceTo tn s.m.train_size)
        val_names := some vn
        train_dataset := some (mkTrainDataset s.m (pySliceTo tn s.m.train_size))
        validation_dataset := some (mkValDataset s.m vn)
        test_names := some ts
        test_dataset := some (mkTestDataset s.m ts) } := by
  have htn' : fs (trainManifestPath s.m) = some tn := htn
  have hvn' : fs (valManifestPath s.m) = some vn := hvn
  have hts' : fs (testManifestPath s.m) = some ts := hts
  refine ⟨?_, ?_, ?_⟩
  · simp [setup, runFit, htn', hvn']
  · simp [setup, runTest, hts']
  · simp [setup, runFit, runTest, htn', hvn', trainManifestPath,
      valManifestPath, testManifestPath, PCDDataModule.path_to_names] at *
    simp [htn', hvn', hts']

/-- Witness for C1: the concrete module `m0` over the environment
`fs0`, full `setup(None)`. -/
theorem setup_loads_manifests_witness :
    setup fs0 none m0.initState = some st0 :=
  (setup_loads_manifests m0.initState fs0 ["a", "b", "c"] ["d"] ["e"]
    (by decide) (by decide) (by decide)).2.2

/-- C9: `setup` applies `train_size` to the train manifest by plain
Python slicing with no validation: an integral `train_size` at least the
manifest length keeps the whole manifest with no error, and a negative
`train_size` still succeeds, producing the slice that drops the last
`-train_size` entries — strictly shorter than the manifest whenever the
manifest is nonempty, possibly empty — instead of rejecting the
configuration. -/
theorem train_size_sliced_unvalidated (s : ModuleState T Lb)
    (fs : String → Option (List String)) (tn vn : List String) (k : Int)
    (htn : fs (pathJoin (pathParent s.m.path_to_X) "train.json") = some tn)
    (hvn : fs (pathJoin (pathParent s.m.path_to_X) "validation.json") = some vn)
    (hk : s.m.train_size = some k) :
    ((tn.length : Int) ≤ k →
      setup fs (some "fit") s = some { s with
        train_names := some tn
        val_names := some vn
        train_dataset := some (mkTrainDataset s.m tn)
        validation_dataset := some (mkValDataset s.m vn) }) ∧
    (k < 0 →
      setup fs (some "fit") s = some { s with
        train_names := some (tn.take (tn.length - (-k).toNat))
        val_names := some vn
        train_dataset := some (mkTrainDataset s.m (tn.take (tn.length - (-k).toNat)))
        validation_dataset := some (mkValDataset s.m vn) } ∧
      (tn ≠ [] → tn.length - (-k).toNat < tn.length)) := by
  have htn' : fs (trainManifestPath s.m) = some tn := htn
  have hvn' : fs (valManifestPath s.m) = some vn := hvn
  constructor
  · intro hle
    have h0 : 0 ≤ k := le_trans (by positivity) hle
    have hfull : pySliceTo tn s.m.train_size = tn := by
      rw [hk]
      simp only [pySliceTo, if_pos h0]
      exact List.take_of_length_le (by omega)
    simp [setup, runFit, htn', hvn', hfull]
  · intro hneg
    have hslice : pySliceTo tn s.m.train_size =
        tn.take (tn.length - (-k).toNat) := by
      rw [hk]
      simp only [pySliceTo]
      rw [if_neg (by omega)]
    refine ⟨by simp [setup, runFit, htn', hvn', hslice], fun hne => ?_⟩
    have hpos : 0 < tn.length := List.length_pos.mpr hne
    omega

/-- Witness for C9: the concrete module `m0` with `train_size = 5`
(manifest has 3 names, all kept) and with `train_size = -1` (the slice
drops the last name). -/
theorem train_size_sliced_unvalidated_witness :
    setup fs0 (some "fit")
        (PCDDataModule.initState { m0 with train_size := some 5 }) =
      some { m := { m0 with train_size := some 5 }
             train_names := some ["a", "b", "c"]
             val_names := some ["d"]
             train_dataset := some
               (mkTrainDataset { m0 with train_size := some 5 } ["a", "b", "c"])
             validation_dataset := some
               (mkValDataset { m0 with train_size := some 5 } ["d"]) } ∧
    setup fs0 (some "fit")
        (PCDDataModule.initState { m0 with train_size := some (-1) }) =
      some { m := { m0 with train_size := some (-1) }
             train_names := some ["a", "b"]
             val_names := some ["d"]
             train_dataset := some
               (mkTrainDataset { m0 with train_size := some (-1) } ["a", "b"])
             validation_dataset := some
               (mkValDataset { m0 with train_size := some (-1) } ["d"]) } :=
  ⟨(train_size_sliced_unvalidated
      (PCDDataModule.initState { m0 with train_size := some 5 }) fs0
      ["a", "b", "c"] ["d"] 5 (by decide) (by decide) rfl).1 (by decide),
   ((train_size_sliced_unvalidated
      (PCDDataModule.initState { m0 with train_size := some (-1) }) fs0
      ["a", "b", "c"] ["d"] (-1) (by decide) (by decide) rfl).2
      (by decide)).1⟩

/-- Characterization of a successful fit branch. -/
lemma runFit_eq_some (fs : String → Option (List String))
    (s s1 : ModuleState T Lb) :
    runFit fs s = some s1 ↔
    ∃ tn vn, fs (trainManifestPath s.m) = some tn ∧
      fs (valManifestPath s.m) = some vn ∧
      s1 = { s with
        train_names := some (pySliceTo tn s.m.train_size)
        val_names := some vn
        train_dataset := some (mkTrainDataset s.m (pySliceTo tn s.m.train_size))
        validation_dataset := some (mkValDataset s.m vn) } := by
  unfold runFit
  cases hT : fs (trainManifestPath s.m) <;>
    cases hV : fs (valManifestPath s.m) <;>
    simp [eq_comm]

/-- Characterization of a successful test branch. -/
lemma runTest_eq_some (fs : String → Option (List String))
    (s s1 : ModuleState T Lb) :
    runTest fs s = some s1 ↔
    ∃ ts, fs (testManifestPath s.m) = some ts ∧
      s1 = { s with
        test_names := some ts
        test_dataset := some (mkTestDataset s.m ts) } := by
  unfold runTest
  cases hTs : fs (testManifestPath s.m) <;> simp [eq_comm]

/-- C7: For every coordinator and every stage, calling `setup` twice
over unchanged manifest files is idempotent: a second call on the state
the first call produced succeeds and re-derives exactly that state. -/
theorem setup_idempotent (stage : Option String)
    (fs : String → Option (List String)) (s s' : ModuleState T Lb)
    (h : setup fs stage s = some s') :
    setup fs stage s' = some s' := by
  by_cases h1 : stage = none ∨ stage = some "fit" <;>
    by_cases h2 : stage = none ∨ stage = some "test"
  · simp only [setup, if_pos h1, if_pos h2, Option.bind_eq_some] at h ⊢
    obtain ⟨a, hf, ht⟩ := h
    rw [runFit_eq_some] at hf
    obtain ⟨tn, vn, hT, hV, ha⟩ := hf
    subst ha
    rw [runTest_eq_some] at ht
    obtain ⟨ts, hTs, hs'⟩ := ht
    subst hs'
    refine ⟨_, (runFit_eq_some fs _ _).mpr ⟨tn, vn, hT, hV, rfl⟩, ?_⟩
    exact (runTest_eq_some fs _ _).mpr ⟨ts, hTs, rfl⟩
  · simp only [setup, if_pos h1, if_neg h2, Option.bind_eq_some] at h ⊢
    obtain ⟨a, hf, ha⟩ := h
    rw [Option.some_inj] at ha
    subst ha
    rw [runFit_eq_some] at hf
    obtain ⟨tn, vn, hT, hV, hs'⟩ := hf
    subst hs'
    exact ⟨_, (runFit_eq_some fs _ _).mpr ⟨tn, vn, hT, hV, rfl⟩, rfl⟩
  · simp only [setup, if_neg h1, if_pos h2, Option.some_bind] at h ⊢
    rw [runTest_eq_some] at h
    obtain ⟨ts, hTs, hs'⟩ := h
    subst hs'
    exact (runTest_eq_some fs _ _).mpr ⟨ts, hTs, rfl⟩
  · simp only [setup, if_neg h1, if_neg h2, Option.some_bind] at h ⊢

/-- Witness for C7: re-running the full `setup(None)` on the state it
produced for `m0` returns that state again. -/
theorem setup_idempotent_witness :
    setup fs0 none st0 = some st0 :=
  setup_idempotent none fs0 m0.initState st0 rfl

/-- A call that passes some keyword twice is rejected before the
constructor body runs. -/
lemma dataLoaderCall_dup (kwargs : List (String × KwArg T Lb))
    (h : ¬ (kwargs.map Prod.fst).Nodup) :
    dataLoaderCall kwargs = .error .typeError := by
  rw [dataLoaderCall, if_neg h]

/-- Evaluation of the `DataLoader` call shape used by
`train_dataloader`, under a passthrough mapping that collides with no
explicit keyword. -/
lemma dataLoaderCall_train_ok (d : PCDDataset T Lb) (bs : Nat) (sh : Bool)
    (cfg : List (String × KwArg T Lb))
    (hnodup : (cfg.map Prod.fst).Nodup)
    (hds : "dataset" ∉ cfg.map Prod.fst)
    (hbs : "batch_size" ∉ cfg.map Prod.fst)
    (hsh : "shuffle" ∉ cfg.map Prod.fst) :
    dataLoaderCall ([("dataset", KwArg.dataset d), ("batch_size", KwArg.nat bs),
        ("shuffle", KwArg.bool sh)] ++ cfg) =
      .ok { dataset := d, batch_size := bs, shuffle := sh, extra := cfg } := by
  have hkeys : ((([("dataset", KwArg.dataset d), ("batch_size", KwArg.nat bs),
      ("shuffle", KwArg.bool sh)] : List (String × KwArg T Lb)) ++ cfg).map
        Prod.fst).Nodup := by
    simp [List.nodup_cons, hnodup, hds, hbs, hsh]
  have hfil : List.filter (fun kv =>
      kv.1 != "dataset" && kv.1 != "batch_size" && kv.1 != "shuffle") cfg
        = cfg := by
    rw [List.filter_eq_self]
    intro kv hkv
    have h1 : kv.1 ≠ "dataset" := fun he =>
      hds (he ▸ List.mem_map_of_mem Prod.fst hkv)
    have h2 : kv.1 ≠ "batch_size" := fun he =>
      hbs (he ▸ List.mem_map_of_mem Prod.fst hkv)
    have h3 : kv.1 ≠ "shuffle" := fun he =>
      hsh (he ▸ List.mem_map_of_mem Prod.fst hkv)
    simp [h1, h2, h3]
  rw [dataLoaderCall, if_pos hkeys]
  simp [kwLookup, List.find?, List.filter, hfil]

/-- Evaluation of the `DataLoader` call shape used by `val_dataloader`
and `test_dataloader` (no explicit shuffle argument), under a
passthrough mapping that collides with no explicit keyword: the
`DataLoader` default `shuffle=False` applies. -/
lemma dataLoaderCall_eval_ok (d : PCDDataset T Lb) (bs : Nat)
    (cfg : List (String × KwArg T Lb))
    (hnodup : (cfg.map Prod.fst).Nodup)
    (hds : "dataset" ∉ cfg.map Prod.fst)
    (hbs : "batch_size" ∉ cfg.map Prod.fst)
    (hsh : "shuffle" ∉ cfg.map Prod.fst) :
    dataLoaderCall ([("dataset", KwArg.dataset d),
        ("batch_size", KwArg.nat bs)] ++ cfg) =
      .ok { dataset := d, batch_size := bs, shuffle := false, extra := cfg } := by
  have hkeys : ((([("dataset", KwArg.dataset d), ("batch_size", KwArg.nat bs)] :
      List (String × KwArg T Lb)) ++ cfg).map Prod.fst).Nodup := by
    simp [List.nodup_cons, hnodup, hds, hbs]
  have hfil : List.filter (fun kv =>
      kv.1 != "dataset" && kv.1 != "batch_size" && kv.1 != "shuffle") cfg
        = cfg := by
    rw [List.filter_eq_self]
    intro kv hkv
    have h1 : kv.1 ≠ "dataset" := fun he =>
      hds (he ▸ List.mem_map_of_mem Prod.fst hkv)
    have h2 : kv.1 ≠ "batch_size" := fun he =>
      hbs (he ▸ List.mem_map_of_mem Prod.fst hkv)
    have h3 : kv.1 ≠ "shuffle" := fun he =>
      hsh (he ▸ List.mem_map_of_mem Prod.fst hkv)
    simp [h1, h2, h3]
  have hfind : List.find? (fun kv => decide (kv.1 = "shuffle")) cfg = none := by
    rw [List.find?_eq_none]
    intro kv hkv
    simp only [decide_eq_true_eq]
    exact fun he => hsh (he ▸ List.mem_map_of_mem Prod.fst hkv)
  rw [dataLoaderCall, if_pos hkeys]
  simp [kwLookup, List.find?, List.filter, hfil, hfind]

/-- C4: For every configured coordinator after setup, the train loader
is constructed with the configured train batch size and the configured
shuffle flag, the validation and test loaders are constructed with the
configured eval batch size and without shuffling, and the single
configured passthrough option mapping `config_dataloaders` (assumed
free of collisions with the explicit keywords) is applied identically
to every loader. -/
theorem dataloaders_parametrization (s : ModuleState T Lb)
    (dt dv dte : PCDDataset T Lb)
    (hdt : s.train_dataset = some dt)
    (hdv : s.validation_dataset = some dv)
    (hdte : s.test_dataset = some dte)
    (hnodup : (s.m.config_dataloaders.map Prod.fst).Nodup)
    (hds : "dataset" ∉ s.m.config_dataloaders.map Prod.fst)
    (hbs : "batch_size" ∉ s.m.config_dataloaders.map Prod.fst)
    (hsh : "shuffle" ∉ s.m.config_dataloaders.map Prod.fst) :
    train_dataloader s = .ok
      { dataset := dt, batch_size := s.m.train_batch_size,
        shuffle := s.m.shuffle, extra := s.m.config_dataloaders } ∧
    val_dataloader s = .ok
      { dataset := dv, batch_size := s.m.eval_batch_size,
        shuffle := false, extra := s.m.config_dataloaders } ∧
    test_dataloader s = .ok
      { dataset := dte, batch_size := s.m.eval_batch_size,
        shuffle := false, extra := s.m.config_dataloaders } := by
  refine ⟨?_, ?_, ?_⟩
  · simp only [train_dataloader, hdt]
    exact dataLoaderCall_train_ok dt s.m.train_batch_size s.m.shuffle
      s.m.config_dataloaders hnodup hds hbs hsh
  · simp only [val_dataloader, hdv]
    exact dataLoaderCall_eval_ok dv s.m.eval_batch_size
      s.m.config_dataloaders hnodup hds hbs hsh
  · simp only [test_dataloader, hdte]
    exact dataLoaderCall_eval_ok dte s.m.eval_batch_size
      s.m.config_dataloaders hnodup hds hbs hsh

/-- Witness for C4 at the fully set-up concrete module state `st0`. -/
theorem dataloaders_parametrization_witness :
    train_dataloader st0 = .ok
      { dataset := mkTrainDataset m0 ["a", "b", "c"], batch_size := 32,
        shuffle := false, extra := [] } ∧
    val_dataloader st0 = .ok
      { dataset := mkValDataset m0 ["d"], batch_size := 32,
        shuffle := false, extra := [] } ∧
    test_dataloader st0 = .ok
      { dataset := mkTestDataset m0 ["e"], batch_size := 32,
        shuffle := false, extra := [] } :=
  dataloaders_parametrization st0 _ _ _ rfl rfl rfl
    (by decide) (by decide) (by decide) (by decide)

/-- C5: For every coordinator, a loader request for a split whose
`setup` stage has not run fails with the not-ready error (the source
raises because the dataset attribute does not exist); concretely, after
`setup(stage='fit')` alone the test-loader request fails that way, and
after a subsequent `setup(stage='test')` the same request succeeds. -/
theorem loader_before_setup (m : PCDDataModule T Lb)
    (fs : String → Option (List String)) (tn vn ts : List String)
    (htn : fs (pathJoin (pathParent m.path_to_X) "train.json") = some tn)
    (hvn : fs (pathJoin (pathParent m.path_to_X) "validation.json") = some vn)
    (hts : fs (pathJoin (pathParent m.path_to_X) "test.json") = some ts)
    (hnodup : (m.config_dataloaders.map Prod.fst).Nodup)
    (hds : "dataset" ∉ m.config_dataloaders.map Prod.fst)
    (hbs : "batch_size" ∉ m.config_dataloaders.map Prod.fst)
    (hsh : "shuffle" ∉ m.config_dataloaders.map Prod.fst) :
    (∀ s : ModuleState T Lb, s.train_dataset = none →
      train_dataloader s = .error .notReadyError) ∧
    (∀ s : ModuleState T Lb, s.validation_dataset = none →
      val_dataloader s = .error .notReadyError) ∧
    (∀ s : ModuleState T Lb, s.test_dataset = none →
      test_dataloader s = .error .notReadyError) ∧
    ∃ s1 s2 : ModuleState T Lb,
      setup fs (some "fit") m.initState = some s1 ∧
      test_dataloader s1 = .error .notReadyError ∧
      setup fs (some "test") s1 = some s2 ∧
      test_dataloader s2 = .ok
        { dataset := mkTestDataset m ts, batch_size := m.eval_batch_size,
          shuffle := false, extra := m.config_dataloaders } := by
  have htn' : fs (trainManifestPath m) = some tn := htn
  have hvn' : fs (valManifestPath m) = some vn := hvn
  have hts' : fs (testManifestPath m) = some ts := hts
  refine ⟨fun s hs => by simp [train_dataloader, hs],
    fun s hs => by simp [val_dataloader, hs],
    fun s hs => by simp [test_dataloader, hs], ?_⟩
  refine ⟨{ m := m
            train_names := some (pySliceTo tn m.train_size)
            val_names := some vn
            train_dataset := some (mkTrainDataset m (pySliceTo tn m.train_size))
            validation_dataset := some (mkValDataset m vn) },
          { m := m
            train_names := some (pySliceTo tn m.train_size)
            val_names := some vn
            test_names := some ts
            train_dataset := some (mkTrainDataset m (pySliceTo tn m.train_size))
            validation_dataset := some (mkValDataset m vn)
            test_dataset := some (mkTestDataset m ts) }, ?_, rfl, ?_, ?_⟩
  · simp [setup, runFit, htn', hvn', PCDDataModule.initState]
  · simp [setup, runTest, hts']
  · simp only [test_dataloader]
    exact dataLoaderCall_eval_ok (mkTestDataset m ts) m.eval_batch_size
      m.config_dataloaders hnodup hds hbs hsh

/-- Witness for C5: the concrete module `m0` over the environment
`fs0`. -/
theorem loader_before_setup_witness :
    ∃ s1 s2 : ModuleState Unit Unit,
      setup fs0 (some "fit") m0.initState = some s1 ∧
      test_dataloader s1 = .error .notReadyError ∧
      setup fs0 (some "test") s1 = some s2 ∧
      test_dataloader s2 = .ok
        { dataset := mkTestDataset m0 ["e"], batch_size := m0.eval_batch_size,
          shuffle := false, extra := m0.config_dataloaders } :=
  (loader_before_setup m0 fs0 ["a", "b", "c"] ["d"] ["e"]
    (by decide) (by decide) (by decide)
    (by decide) (by decide) (by decide) (by decide)).2.2.2

/-- C10: For every coordinator whose passthrough mapping
`config_dataloaders` contains the key `batch_size`, or contains the key
`shuffle` when the train loader is requested, constructing the
corresponding loader fails with the duplicate-keyword-argument
`TypeError` instead of silently overriding the per-split configured
value. -/
theorem duplicate_kwarg_config (s : ModuleState T Lb)
    (dt dv dte : PCDDataset T Lb)
    (hdt : s.train_dataset = some dt)
    (hdv : s.validation_dataset = some dv)
    (hdte : s.test_dataset = some dte) :
    ("batch_size" ∈ s.m.config_dataloaders.map Prod.fst →
      train_dataloader s = .error .typeError ∧
      val_dataloader s = .error .typeError ∧
      test_dataloader s = .error .typeError) ∧
    ("shuffle" ∈ s.m.config_dataloaders.map Prod.fst →
      train_dataloader s = .error .typeError) := by
  constructor
  · intro hb
    refine ⟨?_, ?_, ?_⟩
    · simp only [train_dataloader, hdt]
      apply dataLoaderCall_dup
      intro hn
      simp only [List.map_append, List.map_cons, List.map_nil,
        List.cons_append, List.nil_append, List.nodup_cons, List.mem_cons,
        List.mem_append] at hn
      exact hn.2.1 (Or.inr hb)
    · simp only [val_dataloader, hdv]
      apply dataLoaderCall_dup
      intro hn
      simp only [List.map_append, List.map_cons, List.map_nil,
        List.cons_append, List.nil_append, List.nodup_cons, List.mem_cons,
        List.mem_append] at hn
      exact hn.2.1 hb
    · simp only [test_dataloader, hdte]
      apply dataLoaderCall_dup
      intro hn
      simp only [List.map_append, List.map_cons, List.map_nil,
        List.cons_append, List.nil_append, List.nodup_cons, List.mem_cons,
        List.mem_append] at hn
      exact hn.2.1 hb
  · intro hb
    simp only [train_dataloader, hdt]
    apply dataLoaderCall_dup
    intro hn
    simp only [List.map_append, List.map_cons, List.map_nil,
      List.cons_append, List.nil_append, List.nodup_cons, List.mem_cons,
      List.mem_append] at hn
    exact hn.2.2.1 hb

/-- A concrete set-up state whose passthrough mapping already carries
`batch_size`. -/
def st10a : ModuleState Unit Unit :=
  { m := { m0 with config_dataloaders := [("batch_size", KwArg.nat 1)] }
    train_dataset := some (mkTrainDataset m0 [])
    validation_dataset := some (mkValDataset m0 [])
    test_dataset := some (mkTestDataset m0 []) }

/-- A concrete set-up state whose passthrough mapping already carries
`shuffle`. -/
def st10b : ModuleState Unit Unit :=
  { m := { m0 with config_dataloaders := [("shuffle", KwArg.bool true)] }
    train_dataset := some (mkTrainDataset m0 [])
    validation_dataset := some (mkValDataset m0 [])
    test_dataset := some (mkTestDataset m0 []) }

/-- Witness for C10: a `batch_size` passthrough breaks all three
loaders, a `shuffle` passthrough breaks the train loader. -/
theorem duplicate_kwarg_config_witness :
    (train_dataloader st10a = .error .typeError ∧
     val_dataloader st10a = .error .typeError ∧
     test_dataloader st10a = .error .typeError) ∧
    train_dataloader st10b = .error .typeError :=
  ⟨(duplicate_kwarg_config st10a _ _ _ rfl rfl rfl).1 (by decide),
   (duplicate_kwarg_config st10b _ _ _ rfl rfl rfl).2 (by decide)⟩

/-- Counterexample to C8 as stated: on the fully set-up concrete state
`st0` the train, validation and test loader requests all succeed, but
the predict request does not — the source class defines no
`predict_dataloader` method and owns no predict dataset, so there is no
uniform loader operation covering four splits. -/
theorem predict_loader_counterexample :
    (∃ dl, dataloaderFor st0 Split.train = .ok dl) ∧
    (∃ dl, dataloaderFor st0 Split.val = .ok dl) ∧
    (∃ dl, dataloaderFor st0 Split.test = .ok dl) ∧
    dataloaderFor st0 Split.predict = .error .notImplementedError ∧
    ¬ ∃ dl, dataloaderFor st0 Split.predict = .ok dl := by
  refine ⟨⟨_, rfl⟩, ⟨_, rfl⟩, ⟨_, rfl⟩, rfl, ?_⟩
  rintro ⟨dl, h⟩
  simp [dataloaderFor] at h

/-- C8 amended: the split coordinator owns three per-split datasets —
train, validation and test — and exposes a uniform get-loader-for-split
operation for exactly those three logical splits; a predict-loader
request fails because no predict dataset or loader method exists. -/
theorem three_split_loaders (s : ModuleState T Lb)
    (dt dv dte : PCDDataset T Lb)
    (hdt : s.train_dataset = some dt)
    (hdv : s.validation_dataset = some dv)
    (hdte : s.test_dataset = some dte)
    (hnodup : (s.m.config_dataloaders.map Prod.fst).Nodup)
    (hds : "dataset" ∉ s.m.config_dataloaders.map Prod.fst)
    (hbs : "batch_size" ∉ s.m.config_dataloaders.map Prod.fst)
    (hsh : "shuffle" ∉ s.m.config_dataloaders.map Prod.fst) :
    (∃ dl, dataloaderFor s Split.train = .ok dl) ∧
    (∃ dl, dataloaderFor s Split.val = .ok dl) ∧
    (∃ dl, dataloaderFor s Split.test = .ok dl) ∧
    dataloaderFor s Split.predict = .error .notImplementedError := by
  refine ⟨?_, ?_, ?_, rfl⟩
  · simp only [dataloaderFor, train_dataloader, hdt]
    exact ⟨_, dataLoaderCall_train_ok dt s.m.train_batch_size s.m.shuffle
      s.m.config_dataloaders hnodup hds hbs hsh⟩
  · simp only [dataloaderFor, val_dataloader, hdv]
    exact ⟨_, dataLoaderCall_eval_ok dv s.m.eval_batch_size
      s.m.config_dataloaders hnodup hds hbs hsh⟩
  · simp only [dataloaderFor, test_dataloader, hdte]
    exact ⟨_, dataLoaderCall_eval_ok dte s.m.eval_batch_size
      s.m.config_dataloaders hnodup hds hbs hsh⟩

/-- Witness for the amended C8 at the concrete state `st0`. -/
theorem three_split_loaders_witness :
    (∃ dl, dataloaderFor st0 Split.train = .ok dl) ∧
    (∃ dl, dataloaderFor st0 Split.val = .ok dl) ∧
    (∃ dl, dataloaderFor st0 Split.test = .ok dl) ∧
    dataloaderFor st0 Split.predict = .error .notImplementedError :=
  three_split_loaders st0 _ _ _ rfl rfl rfl
    (by decide) (by decide) (by decide) (by decide)

end Aidsorb
